import Mathlib

/-!
Verification of the GhostCart mandate-chain and autonomous-monitoring core.

The definitions below are a shallow embedding of the Python sources:

* `src/backend/src/services/signature_service.py` (namespace `SignatureService`)
* `src/backend/src/agents/payment_agent/crypto.py` (namespace `AgentCrypto`)
* `src/backend/src/agents/payment_agent/{models,tools}.py` (namespace `PaymentAgent`)
* `src/backend/src/models/mandates.py` and
  `src/backend/src/services/mandate_service.py` (namespace `Mandates`)
* `src/backend/src/services/{monitoring_service,transaction_service}.py`
  (namespace `Monitoring`)

Modelling conventions: Python `int` money/day/time values are `Nat` (the
pydantic validators restrict them to be non-negative; timestamps are seconds
since the epoch and `datetime.isoformat()` is modeled as the decimal rendering
of that number — only determinism of the rendering is relevant to the proofs);
`float` arithmetic `int(x * 1.08 + 1000)` and `int(x * 0.08)` is embedded as
exact floored rational arithmetic `x * 108 / 100 + 1000` and `x * 8 / 100` on
`Nat`, which agrees with the double computation on the magnitudes that occur
here; fallible Python code is embedded with `Option`/`Except`; the HMAC-SHA256
primitive from the `hmac`/`hashlib` standard library is an explicit function
parameter `hmacSha256 : String → String → String` (every theorem holds for
every digest function, in particular for the real one).
-/

namespace GhostCart

/-- JSON-like values: the shallow embedding of the Python dictionaries that the
signature services serialize with `json.dumps`. -/
inductive Json where
  | null
  | bool (b : Bool)
  | num (n : Int)
  | str (s : String)
  | arr (elems : List Json)
  | obj (fields : List (String × Json))

/-- Whether the first character list is an initial segment of the second. -/
def charsStart : List Char → List Char → Bool
  | [], _ => true
  | _ :: _, [] => false
  | a :: as, b :: bs => a = b && charsStart as bs

/-- Whether `needle` occurs as a contiguous substring of `hay`; the Python
`needle in hay` test on strings. -/
def charsContain (needle : List Char) : List Char → Bool
  | [] => charsStart needle []
  | c :: rest => charsStart needle (c :: rest) || charsContain needle rest

/-- Python substring membership `needle in hay`. -/
def strContains (hay needle : String) : Bool := charsContain needle.data hay.data

/-- Python `hay.startswith(needle)` / pydantic pattern `^needle`. -/
def strStarts (hay needle : String) : Bool := charsStart needle.data hay.data

/-- Lexicographic comparison of character lists by code point, the order
Python uses to compare `str` keys. -/
def charsLe : List Char → List Char → Bool
  | [], _ => true
  | _ :: _, [] => false
  | a :: as, b :: bs =>
      if a.toNat < b.toNat then true
      else if a.toNat = b.toNat then charsLe as bs
      else false

/-- Key order of `json.dumps(..., sort_keys=True)`: code-point lexicographic
comparison of the key strings. -/
def keyLe (a b : String) : Bool := charsLe a.data b.data

/-- Insert a field into a key-sorted field list. Helper for the
`sort_keys=True` behaviour of `json.dumps`. -/
def insertField (f : String × Json) : List (String × Json) → List (String × Json)
  | [] => [f]
  | g :: gs => if keyLe f.1 g.1 then f :: g :: gs else g :: insertField f gs

/-- Sort a field list by key (insertion sort); `json.dumps(..., sort_keys=True)`. -/
def sortFields : List (String × Json) → List (String × Json)
  | [] => []
  | f :: fs => insertField f (sortFields fs)

mutual
/-- Recursively sort the keys of every object in a JSON value, the key order
produced by `json.dumps(data, sort_keys=True)`. -/
def canonValue : Json → Json
  | .null => .null
  | .bool b => .bool b
  | .num n => .num n
  | .str s => .str s
  | .arr xs => .arr (canonArr xs)
  | .obj fs => .obj (sortFields (canonFields fs))

/-- Canonicalize every element of a JSON array. -/
def canonArr : List Json → List Json
  | [] => []
  | x :: xs => canonValue x :: canonArr xs

/-- Canonicalize every value of a JSON object field list. -/
def canonFields : List (String × Json) → List (String × Json)
  | [] => []
  | f :: fs => (f.1, canonValue f.2) :: canonFields fs
end

/-- JSON escaping of the characters of a string (backslash and double quote;
the characters appearing in mandate payloads). -/
def escapeChars : List Char → List Char
  | [] => []
  | c :: cs =>
      if c = '\\' ∨ c = '"' then '\\' :: c :: escapeChars cs else c :: escapeChars cs

/-- JSON string escaping. -/
def escapeString (s : String) : String := ⟨escapeChars s.data⟩

mutual
/-- Render a (key-canonicalized) JSON value with no insignificant whitespace,
matching `json.dumps(..., separators=(",", ":"))`. -/
def renderValue : Json → String
  | .null => "null"
  | .bool true => "true"
  | .bool false => "false"
  | .num n => toString n
  | .str s => "\"" ++ escapeString s ++ "\""
  | .arr xs => "[" ++ renderArr xs ++ "]"
  | .obj fs => "\x7b" ++ renderFields fs ++ "\x7d"

/-- Render the comma-separated elements of a JSON array. -/
def renderArr : List Json → String
  | [] => ""
  | [x] => renderValue x
  | x :: y :: xs => renderValue x ++ "," ++ renderArr (y :: xs)

/-- Render the comma-separated `"key":value` fields of a JSON object. -/
def renderFields : List (String × Json) → String
  | [] => ""
  | [f] => "\"" ++ escapeString f.1 ++ "\":" ++ renderValue f.2
  | f :: g :: fs =>
      "\"" ++ escapeString f.1 ++ "\":" ++ renderValue f.2 ++ "," ++ renderFields (g :: fs)
end

/-- ISO-8601 rendering of a timestamp. Time is modeled as a natural number of
seconds and the rendering as its decimal digits; the proofs use only that the
rendering is a deterministic function of the timestamp. -/
def timeIso (t : Nat) : String := toString t

namespace SignatureService

/-- The `SignatureObject` pydantic model (`src/models/signatures.py`):
algorithm tag, signer identity, timestamp and hex digest. -/
structure SignatureObject where
  algorithm : String
  signer_identity : String
  timestamp : Nat
  signature_value : String
  deriving DecidableEq

/-- Embeds `create_canonical_json`: sorted keys, no whitespace
(`json.dumps(data, sort_keys=True, separators=(",", ":"))`). -/
def create_canonical_json (data : Json) : String :=
  renderValue (canonValue data)

/-- The message that is signed and verified, the f-string
`f"\x7bcanonical_data\x7d|\x7bsigner_identity\x7d|\x7btimestamp\x7d"` used by
both `signature_service.py` and `payment_agent/crypto.py`. -/
def signingMessage (mandate_data : Json) (signer_identity timestamp_iso : String) : String :=
  create_canonical_json mandate_data ++ "|" ++ signer_identity ++ "|" ++ timestamp_iso

/-- Embeds `sign_mandate` from `signature_service.py`: canonicalize the record,
build the message from the canonical form, the signer identity and the signing
time, and HMAC it with the role secret. `now` is the value of
`datetime.utcnow()` at the call. -/
def sign_mandate (hmacSha256 : String → String → String) (mandate_data : Json)
    (signer_identity secret_key : String) (now : Nat) : SignatureObject :=
  { algorithm := "HMAC-SHA256"
    signer_identity := signer_identity
    timestamp := now
    signature_value :=
      hmacSha256 secret_key (signingMessage mandate_data signer_identity (timeIso now)) }

/-- Embeds `verify_signature` from `signature_service.py`: recompute the digest
from the record and the signature metadata and compare
(`hmac.compare_digest` is equality on the hex strings). No field of the
signature other than the signer identity, timestamp and value is consulted,
and no relation to the current time is checked. -/
def verify_signature (hmacSha256 : String → String → String) (mandate_data : Json)
    (signature : SignatureObject) (secret_key : String) : Bool :=
  hmacSha256 secret_key
      (signingMessage mandate_data signature.signer_identity (timeIso signature.timestamp))
    == signature.signature_value

end SignatureService

namespace AgentCrypto

/-- The three signer roles of `get_secret` in `payment_agent/crypto.py`. -/
inductive SecretRole where
  | user
  | agent
  | payment_agent
  deriving DecidableEq

/-- Embeds `verify_signature` from `payment_agent/crypto.py`. The whole body is
wrapped in `try/except` returning `False`, so a missing secret
(`get_secret` raising `RuntimeError`) yields `false` rather than an
exception; otherwise the digest is recomputed from the supplied signer
identity and timestamp string and compared. There is no timestamp check. -/
def verify_signature (hmacSha256 : String → String → String)
    (secrets : SecretRole → Option String) (mandate_data : Json)
    (signature_value signer_identity timestamp_iso : String)
    (secret_type : SecretRole) : Bool :=
  match secrets secret_type with
  | none => false
  | some secret_key =>
      hmacSha256 secret_key
          (SignatureService.signingMessage mandate_data signer_identity timestamp_iso)
        == signature_value

/-- Embeds `verify_user_signature` from `payment_agent/crypto.py`. -/
def verify_user_signature (hmacSha256 : String → String → String)
    (secrets : SecretRole → Option String) (mandate_data : Json)
    (signature_value signer_identity timestamp_iso : String) : Bool :=
  verify_signature hmacSha256 secrets mandate_data signature_value signer_identity
    timestamp_iso .user

/-- Embeds `verify_agent_signature` from `payment_agent/crypto.py`. -/
def verify_agent_signature (hmacSha256 : String → String → String)
    (secrets : SecretRole → Option String) (mandate_data : Json)
    (signature_value signer_identity timestamp_iso : String) : Bool :=
  verify_signature hmacSha256 secrets mandate_data signature_value signer_identity
    timestamp_iso .agent

end AgentCrypto

namespace PaymentAgent

/-- The `SignatureObject` model of `payment_agent/models.py` (same fields as
the backend one; its parse validators additionally reject future timestamps,
which matters at parse time, not inside `verify_signature`). -/
structure SignatureObject where
  algorithm : String
  signer_identity : String
  timestamp : Nat
  signature_value : String
  deriving DecidableEq

/-- The `ConstraintsObject` model of `payment_agent/models.py`: optional price
and delivery bounds. -/
structure ConstraintsObject where
  max_price_cents : Option Nat
  max_delivery_days : Option Nat
  currency : String
  deriving DecidableEq

/-- The `IntentMandate` model of `payment_agent/models.py`. -/
structure IntentMandate where
  mandate_id : String
  user_id : String
  scenario : String
  product_query : String
  constraints : Option ConstraintsObject
  expiration : Option Nat
  signature : Option SignatureObject
  deriving DecidableEq

/-- The `LineItem` model of `payment_agent/models.py`. -/
structure LineItem where
  product_id : String
  product_name : String
  quantity : Nat
  unit_price_cents : Nat
  line_total_cents : Nat
  deriving DecidableEq

/-- The `TotalObject` model of `payment_agent/models.py`. Its declared fields
are exactly `subtotal_cents`, `tax_cents`, `shipping_cents`,
`grand_total_cents` and `currency` — there is no `total_cents` field. -/
structure TotalObject where
  subtotal_cents : Nat
  tax_cents : Nat
  shipping_cents : Nat
  grand_total_cents : Nat
  currency : String
  deriving DecidableEq

/-- Python attribute access `cart.total.total_cents` as written at
`payment_agent/tools.py` lines 116, 225 and 242. `TotalObject` declares no
`total_cents` field, so on a pydantic model instance the access raises
`AttributeError`; the access is embedded as the corresponding `Except` error. -/
def TotalObject.total_cents (_t : TotalObject) : Except String Nat :=
  .error "AttributeError: TotalObject object has no attribute total_cents"

/-- The `MerchantInfo` model of `payment_agent/models.py`. -/
structure MerchantInfo where
  merchant_id : String
  merchant_name : String
  merchant_url : String
  deriving DecidableEq

/-- The `ReferencesObject` model of `payment_agent/models.py` and
`models/mandates.py`: optional links to the originating Intent and to the
transaction. -/
structure ReferencesObject where
  intent_mandate_id : Option String
  transaction_id : Option String
  deriving DecidableEq

/-- Python inequality `cart.references != intent.mandate_id`
(`payment_agent/tools.py` line 210): the left side is a parsed
`ReferencesObject` model instance and the right side a `str`. A pydantic
`BaseModel` instance is never equal to a string (its `__eq__` returns
`NotImplemented` for non-model operands and the comparison falls back to
identity), so the inequality always holds. -/
def referencesNeStr (_refs : ReferencesObject) (_s : String) : Bool := true

/-- The `CartMandate` model of `payment_agent/models.py` (lines 189-209). Its
declared fields are exactly these eight — in particular there is **no**
`user_id` field, and `extra: "forbid"` rejects a `user_id` key in the input
dict. -/
structure CartMandate where
  mandate_id : String
  items : List LineItem
  total : TotalObject
  merchant_info : MerchantInfo
  delivery_estimate_days : Nat
  references : ReferencesObject
  signature : SignatureObject
  deriving DecidableEq

/-- Python attribute access `cart.user_id` as written at
`payment_agent/tools.py` lines 216-218 and 243. The payment-agent
`CartMandate` model declares no `user_id` field, so on a pydantic model
instance the access raises `AttributeError`; the access is embedded as the
corresponding `Except` error. -/
def CartMandate.user_id (_c : CartMandate) : Except String String :=
  .error "AttributeError: CartMandate object has no attribute user_id"

/-- One tag per `errors.append` site of `validate_hnp_chain`
(`payment_agent/tools.py` lines 173, 186, 189, 193, 207, 211, 218, 226, 234,
251, in that order). The `exception` tag is the `except` handler's
`"Chain validation exception: ..."` entry. -/
inductive ChainError where
  | intentSigMissing
  | intentSigInvalid
  | intentSignerMismatch (signer user_id : String)
  | intentExpired (expiration : Nat)
  | cartSigInvalid
  | cartRefMismatch
  | userIdMismatch (intent_user cart_user : String)
  | priceExceeded (cart_total max_price : Nat)
  | deliveryExceeded (cart_days max_days : Nat)
  | exception (message : String)
  deriving DecidableEq

/-- Whether a collected error entry is one of the two constraint-check entries
(price or delivery) of `validate_hnp_chain`. -/
def ChainError.isConstraintEntry : ChainError → Bool
  | .priceExceeded _ _ => true
  | .deliveryExceeded _ _ => true
  | _ => false

/-- Whether a collected error entry is the user-mismatch entry of check 5 of
`validate_hnp_chain`. -/
def ChainError.isUserMismatchEntry : ChainError → Bool
  | .userIdMismatch _ _ => true
  | _ => false

/-- The result dictionary of `validate_hnp_chain`. -/
structure HnpResult where
  valid : Bool
  errors : List ChainError
  cart_total_cents : Nat
  user_id : String
  intent_id : String
  cart_id : String
  deriving DecidableEq

/-- The result built by the `except` handler of `validate_hnp_chain`: the error
list accumulated so far plus the exception entry, `valid: False`, and the
placeholder fields. -/
def hnpExceptResult (collected : List ChainError) (message : String) : HnpResult :=
  { valid := false
    errors := collected ++ [.exception message]
    cart_total_cents := 0
    user_id := "unknown"
    intent_id := "unknown"
    cart_id := "unknown" }

/-- The mandate dictionary (minus its `signature` key) that
`validate_hnp_chain` passes to `verify_user_signature` for a parsed Intent:
`intent_mandate.copy()` with `signature` popped. -/
def IntentMandate.contentJson (intent : IntentMandate) : Json :=
  .obj [("mandate_id", .str intent.mandate_id),
        ("mandate_type", .str "intent"),
        ("user_id", .str intent.user_id),
        ("scenario", .str intent.scenario),
        ("product_query", .str intent.product_query),
        ("constraints",
          match intent.constraints with
          | none => .null
          | some c =>
              .obj [("max_price_cents",
                      match c.max_price_cents with | none => .null | some n => .num n),
                    ("max_delivery_days",
                      match c.max_delivery_days with | none => .null | some n => .num n),
                    ("currency", .str c.currency)]),
        ("expiration",
          match intent.expiration with | none => .null | some e => .str (timeIso e))]

/-- The cart dictionary (minus its `signature` key) that `validate_hnp_chain`
passes to `verify_agent_signature`: `cart_mandate.copy()` with `signature`
popped. -/
def CartMandate.contentJson (cart : CartMandate) : Json :=
  .obj [("mandate_id", .str cart.mandate_id),
        ("mandate_type", .str "cart"),
        ("items", .arr (cart.items.map (fun li =>
          .obj [("product_id", .str li.product_id),
                ("product_name", .str li.product_name),
                ("quantity", .num li.quantity),
                ("unit_price_cents", .num li.unit_price_cents),
                ("line_total_cents", .num li.line_total_cents)]))),
        ("total", .obj [("subtotal_cents", .num cart.total.subtotal_cents),
                        ("tax_cents", .num cart.total.tax_cents),
                        ("shipping_cents", .num cart.total.shipping_cents),
                        ("grand_total_cents", .num cart.total.grand_total_cents),
                        ("currency", .str cart.total.currency)]),
        ("merchant_info", .obj [("merchant_id", .str cart.merchant_info.merchant_id),
                                ("merchant_name", .str cart.merchant_info.merchant_name),
                                ("merchant_url", .str cart.merchant_info.merchant_url)]),
        ("delivery_estimate_days", .num cart.delivery_estimate_days),
        ("references", .obj [("intent_mandate_id",
                               match cart.references.intent_mandate_id with
                               | none => .null | some s => .str s),
                             ("transaction_id",
                               match cart.references.transaction_id with
                               | none => .null | some s => .str s)])]

/-- Embeds `validate_hnp_chain` (`payment_agent/tools.py` lines 138-260) on
already-parsed mandates (the `json.loads` / pydantic parse succeeded). Checks
1-4 accumulate error entries without short-circuiting, exactly as the source
appends to `errors`. Check 5 then evaluates `cart.user_id`, an attribute the
`CartMandate` model does not declare, so evaluation reaches the `except`
handler on every path before the constraint checks run; the handler returns
`valid: False` with the entries collected so far plus the exception entry.
(Had check 5 passed, the price check and the result dictionary would in turn
evaluate the equally undeclared `cart.total.total_cents`; those branches are
written below following the source but are unreachable.) -/
def validate_hnp_chain (hmacSha256 : String → String → String)
    (secrets : AgentCrypto.SecretRole → Option String) (now : Nat)
    (intent : IntentMandate) (cart : CartMandate) : HnpResult :=
  -- 1. Intent user signature present, verified, signer is the intent user.
  let e1 : List ChainError :=
    match intent.signature with
    | none => [.intentSigMissing]
    | some sig =>
        (if AgentCrypto.verify_user_signature hmacSha256 secrets intent.contentJson
            sig.signature_value sig.signer_identity (timeIso sig.timestamp)
         then [] else [.intentSigInvalid]) ++
        (if sig.signer_identity ≠ intent.user_id
         then [.intentSignerMismatch sig.signer_identity intent.user_id] else [])
  -- 2. Intent not expired (checked only when an expiration is set).
  let e2 : List ChainError :=
    match intent.expiration with
    | none => []
    | some expiration => if now > expiration then [.intentExpired expiration] else []
  -- 3. Cart agent signature verifies.
  let e3 : List ChainError :=
    if AgentCrypto.verify_agent_signature hmacSha256 secrets cart.contentJson
        cart.signature.signature_value cart.signature.signer_identity
        (timeIso cart.signature.timestamp)
    then [] else [.cartSigInvalid]
  -- 4. Cart references the Intent (a ReferencesObject compared with a str).
  let e4 : List ChainError :=
    if referencesNeStr cart.references intent.mandate_id then [.cartRefMismatch] else []
  let collected := e1 ++ e2 ++ e3 ++ e4
  -- 5. User id match across the chain: the comparison reads `cart.user_id`,
  -- which the CartMandate model does not declare.
  match cart.user_id with
  | .error message => hnpExceptResult collected message
  | .ok cart_user =>
      let collected :=
        collected ++
          (if intent.user_id ≠ cart_user
           then [.userIdMismatch intent.user_id cart_user] else [])
      -- 6. Constraint checks, then the result dictionary. The price check and
      -- the result dictionary both read `cart.total.total_cents`.
      match intent.constraints with
      | some c =>
          match c.max_price_cents with
          | some max_price =>
              match cart.total.total_cents with
              | .error message => hnpExceptResult collected message
              | .ok cart_total =>
                  let collected :=
                    collected ++
                      (if cart_total > max_price
                       then [.priceExceeded cart_total max_price]
                       else [])
                  let collected :=
                    collected ++
                      (match c.max_delivery_days with
                       | some max_days =>
                           if cart.delivery_estimate_days > max_days
                           then [.deliveryExceeded cart.delivery_estimate_days max_days]
                           else []
                       | none => [])
                  match cart.total.total_cents with
                  | .error message => hnpExceptResult collected message
                  | .ok t =>
                      { valid := collected.isEmpty
                        errors := collected
                        cart_total_cents := t
                        user_id := cart_user
                        intent_id := intent.mandate_id
                        cart_id := cart.mandate_id }
          | none =>
              let collected :=
                collected ++
                  (match c.max_delivery_days with
                   | some max_days =>
                       if cart.delivery_estimate_days > max_days
                       then [.deliveryExceeded cart.delivery_estimate_days max_days]
                       else []
                   | none => [])
              match cart.total.total_cents with
              | .error message => hnpExceptResult collected message
              | .ok t =>
                  { valid := collected.isEmpty
                    errors := collected
                    cart_total_cents := t
                    user_id := cart_user
                    intent_id := intent.mandate_id
                    cart_id := cart.mandate_id }
      | none =>
          match cart.total.total_cents with
          | .error message => hnpExceptResult collected message
          | .ok t =>
              { valid := collected.isEmpty
                errors := collected
                cart_total_cents := t
                user_id := cart_user
                intent_id := intent.mandate_id
                cart_id := cart.mandate_id }

end PaymentAgent

namespace Mandates

/-- The `LineItem` model of `models/mandates.py`. -/
structure LineItem where
  product_id : String
  product_name : String
  quantity : Nat
  unit_price_cents : Nat
  line_total_cents : Nat
  deriving DecidableEq

/-- The pydantic parse of one `LineItem` (`models/mandates.py` lines 22-36):
the field bounds `quantity > 0`, `unit_price_cents ≥ 0`, `line_total_cents ≥ 0`
(the last two hold by the `Nat` embedding) and the `validate_line_total` model
validator `line_total == quantity * unit_price`. -/
def mkLineItem (product_id product_name : String)
    (quantity unit_price_cents line_total_cents : Nat) : Except String LineItem :=
  if quantity = 0 then
    .error "quantity: Input should be greater than 0"
  else if line_total_cents ≠ quantity * unit_price_cents then
    .error "Line total mismatch"
  else
    .ok { product_id := product_id
          product_name := product_name
          quantity := quantity
          unit_price_cents := unit_price_cents
          line_total_cents := line_total_cents }

/-- The `TotalObject` model of `models/mandates.py`. -/
structure TotalObject where
  subtotal_cents : Nat
  tax_cents : Nat
  shipping_cents : Nat
  grand_total_cents : Nat
  currency : String
  deriving DecidableEq

/-- The pydantic parse of a `TotalObject` (`models/mandates.py` lines 39-53):
non-negativity holds by the `Nat` embedding; the `validate_grand_total` model
validator requires `grand_total == subtotal + tax + shipping`. -/
def mkTotalObject (subtotal_cents tax_cents shipping_cents grand_total_cents : Nat)
    (currency : String) : Except String TotalObject :=
  if grand_total_cents ≠ subtotal_cents + tax_cents + shipping_cents then
    .error "Grand total mismatch"
  else
    .ok { subtotal_cents := subtotal_cents
          tax_cents := tax_cents
          shipping_cents := shipping_cents
          grand_total_cents := grand_total_cents
          currency := currency }

/-- The `MerchantInfo` model of `models/mandates.py`. -/
structure MerchantInfo where
  merchant_id : String
  merchant_name : String
  merchant_url : String
  deriving DecidableEq

/-- The Python value supplied for the `references` field when a `CartMandate`
is built: `api/chat.py` passes a dict, while
`mandate_service.create_cart_mandate` passes `intent_reference` itself — a
`str` or `None`. -/
inductive RefsValue where
  | pyNone
  | pyStr (s : String)
  | pyDict (intent_mandate_id : Option String) (transaction_id : Option String)
  deriving DecidableEq

/-- The pydantic parse of the `references : ReferencesObject` field of
`CartMandate`: a dict (or a model instance) validates; a `str` or `None` is
rejected with a `ValidationError`. -/
def parseReferences : RefsValue → Except String PaymentAgent.ReferencesObject
  | .pyDict i t => .ok { intent_mandate_id := i, transaction_id := t }
  | .pyStr _ =>
      .error "references: Input should be a valid dictionary or instance of ReferencesObject"
  | .pyNone => .error "references: Field required"

/-- The `CartMandate` model of `models/mandates.py` (lines 139-165). Its
declared fields are exactly these eight — there is **no** `user_id` field,
and `extra: "forbid"` rejects a `user_id` key in the input dict. -/
structure CartMandate where
  mandate_id : String
  items : List LineItem
  total : TotalObject
  merchant_info : MerchantInfo
  delivery_estimate_days : Nat
  references : PaymentAgent.ReferencesObject
  signature : SignatureService.SignatureObject
  deriving DecidableEq

/-- Raw (pre-validation) line item input, the dict of
`\x7b"product_id": ..., "quantity": ..., "line_total_cents": ...\x7d`. -/
structure LineItemInput where
  product_id : String
  product_name : String
  quantity : Nat
  unit_price_cents : Nat
  line_total_cents : Nat
  deriving DecidableEq

/-- Raw (pre-validation) total input, the dict of
`\x7b"subtotal_cents": ..., "grand_total_cents": ..., "currency": ...\x7d`. -/
structure TotalInput where
  subtotal_cents : Nat
  tax_cents : Nat
  shipping_cents : Nat
  grand_total_cents : Nat
  currency : String
  deriving DecidableEq

/-- Parse each raw line item through the `LineItem` validators (pydantic
validates the `items` list elementwise, failing on the first invalid one). -/
def parseItems : List LineItemInput → Except String (List LineItem)
  | [] => .ok []
  | it :: rest =>
      match mkLineItem it.product_id it.product_name it.quantity
          it.unit_price_cents it.line_total_cents with
      | .error e => .error e
      | .ok li =>
          match parseItems rest with
          | .error e => .error e
          | .ok lis => .ok (li :: lis)

/-- The pydantic parse `CartMandate(**mandate_data)` of `models/mandates.py`
lines 139-165: the `mandate_id` pattern `^cart_`, the nested `LineItem` and
`TotalObject` validators, the `references` field parse, then — after the
declared fields — the `extra: "forbid"` rejection of a `user_id` key present
in the input dict (`extra_user_id`), and finally the `validate_totals` model
validator `total.subtotal == Σ line totals` (model validators only run once
field and extra validation passed). -/
def mkCartMandate (mandate_id : String) (items : List LineItemInput)
    (total : TotalInput) (merchant_info : MerchantInfo) (delivery_estimate_days : Nat)
    (references : RefsValue) (extra_user_id : Option String)
    (signature : SignatureService.SignatureObject) :
    Except String CartMandate :=
  if ¬ strStarts mandate_id "cart_" then
    .error "mandate_id: String should match pattern cart_"
  else
    match parseItems items with
    | .error e => .error e
    | .ok lineItems =>
        match mkTotalObject total.subtotal_cents total.tax_cents
            total.shipping_cents total.grand_total_cents total.currency with
        | .error e => .error e
        | .ok totalObj =>
            match parseReferences references with
            | .error e => .error e
            | .ok refs =>
                match extra_user_id with
                | some _ => .error "user_id: Extra inputs are not permitted"
                | none =>
                    if totalObj.subtotal_cents ≠
                        (lineItems.map (fun li => li.line_total_cents)).sum then
                      .error "Subtotal does not equal sum of line items"
                    else
                      .ok { mandate_id := mandate_id
                            items := lineItems
                            total := totalObj
                            merchant_info := merchant_info
                            delivery_estimate_days := delivery_estimate_days
                            references := refs
                            signature := signature }

/-- The `mandate_data` dictionary assembled by
`mandate_service.create_cart_mandate` before signing (lines 168-177): note the
`references` entry is the raw optional Intent id string. -/
def cartMandateData (mandate_id user_id : String) (items : List LineItemInput)
    (total : TotalInput) (merchant_info : MerchantInfo) (delivery_estimate_days : Nat)
    (intent_reference : Option String) : Json :=
  .obj [("mandate_id", .str mandate_id),
        ("mandate_type", .str "cart"),
        ("user_id", .str user_id),
        ("items", .arr (items.map (fun it =>
          .obj [("product_id", .str it.product_id),
                ("product_name", .str it.product_name),
                ("quantity", .num it.quantity),
                ("unit_price_cents", .num it.unit_price_cents),
                ("line_total_cents", .num it.line_total_cents)]))),
        ("total", .obj [("subtotal_cents", .num total.subtotal_cents),
                        ("tax_cents", .num total.tax_cents),
                        ("shipping_cents", .num total.shipping_cents),
                        ("grand_total_cents", .num total.grand_total_cents),
                        ("currency", .str total.currency)]),
        ("merchant_info", .obj [("merchant_id", .str merchant_info.merchant_id),
                                ("merchant_name", .str merchant_info.merchant_name),
                                ("merchant_url", .str merchant_info.merchant_url)]),
        ("delivery_estimate_days", .num delivery_estimate_days),
        ("references",
          match intent_reference with | none => .null | some r => .str r)]

/-- Embeds `mandate_service.create_cart_mandate` (lines 127-220) up to the
pydantic validation step. The source builds `mandate_data` with
`"references": intent_reference` — the optional Intent id **string** — and a
`"user_id"` key that the `CartMandate` model does not declare, signs the dict
with the user or agent secret according to `signed_by`, and then runs
`CartMandate(**mandate_data)`. The function returns the validated mandate or
the `ValidationError` the parse raises. `fresh` stands for the generated
`uuid` part of the mandate id and `now` for the signing time. -/
def create_cart_mandate (hmacSha256 : String → String → String)
    (user_secret agent_secret : String) (user_id : String) (items : List LineItemInput)
    (total : TotalInput) (merchant_info : MerchantInfo) (delivery_estimate_days : Nat)
    (intent_reference : Option String) (signed_by : String) (signer_id : String)
    (fresh : String) (now : Nat) : Except String CartMandate :=
  let scenarioTag :=
    match intent_reference with
    | some r => if strContains r "hnp" then "hnp" else "hp"
    | none => "hp"
  let mandate_id := "cart_" ++ scenarioTag ++ "_" ++ fresh
  let data := cartMandateData mandate_id user_id items total merchant_info
    delivery_estimate_days intent_reference
  let signature := SignatureService.sign_mandate hmacSha256 data signer_id
    (if signed_by = "user" then user_secret else agent_secret) now
  mkCartMandate mandate_id items total merchant_info delivery_estimate_days
    (match intent_reference with
     | some r => .pyStr r
     | none => .pyNone)
    (some user_id)
    signature

end Mandates

namespace Monitoring

/-- The constraint snapshot stored in a monitoring job's `constraints` JSON
column (`monitoring_service.py` writes `intent_mandate["constraints"]`, read
back with `json.loads`). -/
structure JobConstraints where
  max_price_cents : Nat
  max_delivery_days : Nat
  deriving DecidableEq

/-- The `MonitoringJobModel` row (`db/models.py` lines 41-58). The table has
exactly these columns — in particular no column stores a deactivation
reason. -/
structure MonitoringJob where
  job_id : String
  intent_mandate_id : String
  user_id : String
  product_query : String
  constraints : JobConstraints
  schedule_interval_minutes : Nat
  active : Bool
  last_check_at : Option Nat
  created_at : Nat
  expires_at : Nat
  deriving DecidableEq

/-- A persisted mandate row (`MandateModel`), reduced to the columns the
monitoring claims consult. -/
structure StoredMandate where
  id : String
  mandate_type : String
  user_id : String
  deriving DecidableEq

/-- A `TransactionModel` row (`db/models.py` lines 61-84), reduced to the
columns the monitoring claims consult. -/
structure TransactionRow where
  transaction_id : String
  intent_mandate_id : Option String
  cart_mandate_id : String
  payment_mandate_id : String
  user_id : String
  status : String
  amount_cents : Nat
  deriving DecidableEq

/-- The durable store the monitoring service reads and writes: the
`monitoring_jobs`, `mandates` and `transactions` tables. -/
structure Store where
  jobs : List MonitoringJob
  mandates : List StoredMandate
  transactions : List TransactionRow
  deriving DecidableEq

/-- The row update `job.active = False` performed by `deactivate_job` on the
row whose primary key matches. -/
def jobDeactivated (job_id : String) (j : MonitoringJob) : MonitoringJob :=
  if j.job_id = job_id then { j with active := false } else j

/-- Embeds `deactivate_job` (`monitoring_service.py` lines 627-651): select
the job by id; if present set its `active` flag to false and commit; if
absent do nothing. The `reason` argument is only interpolated into a log
line — no store column receives it. (`scheduler.remove_job` also runs; it
touches only the APScheduler job queue, not this store, and swallows its own
exceptions.) -/
def deactivate_job (s : Store) (job_id : String) (_reason : String) : Store :=
  { s with jobs := s.jobs.map (jobDeactivated job_id) }

/-- The job lookup at the top of `check_monitoring_conditions` (lines
192-200): the row whose `job_id` matches **and** whose `active` flag is
true. -/
def find_job (s : Store) (job_id : String) : Option MonitoringJob :=
  s.jobs.find? (fun j => j.job_id = job_id ∧ j.active)

/-- The row update `job.last_check_at = check_time` performed on the row
whose primary key matches. -/
def jobChecked (job_id : String) (now : Nat) (j : MonitoringJob) : MonitoringJob :=
  if j.job_id = job_id then { j with last_check_at := some now } else j

/-- The unconditional `job.last_check_at = check_time; await db.commit()`
(lines 207-209). -/
def update_last_check (s : Store) (job_id : String) (now : Nat) : Store :=
  { s with jobs := s.jobs.map (jobChecked job_id now) }

/-- Embeds `cancel_monitoring_job` (lines 654-687): find the row matching job
id, user id and `active == True`; if absent return false; otherwise
deactivate (reason string `"user_cancelled"`) and return true. -/
def cancel_monitoring_job (s : Store) (job_id user_id : String) : Store × Bool :=
  match s.jobs.find? (fun j => j.job_id = job_id ∧ j.user_id = user_id ∧ j.active) with
  | none => (s, false)
  | some _ => (deactivate_job s job_id "user_cancelled", true)

/-- Embeds the store effect of `create_monitoring_job` (lines 36-135): a new
row with `active=True` and `last_check_at=None` is inserted. `job_id` is the
intent id, so a duplicate insert violates the primary key and the commit
raises, leaving the store unchanged. -/
def create_monitoring_job (s : Store) (intent_id user_id product_query : String)
    (constraints : JobConstraints) (interval_minutes created_at expires_at : Nat) :
    Store :=
  if s.jobs.any (fun j => j.job_id = intent_id) then s
  else
    { s with jobs := s.jobs ++
        [{ job_id := intent_id
           intent_mandate_id := intent_id
           user_id := user_id
           product_query := product_query
           constraints := constraints
           schedule_interval_minutes := interval_minutes
           active := true
           last_check_at := none
           created_at := created_at
           expires_at := expires_at }] }

/-- One catalog search result `\x7bid, price, stock, deliveryDays\x7d` as
returned by `search_products`. -/
structure Product where
  product_id : String
  name : String
  price_cents : Nat
  delivery_estimate_days : Nat
  stock_status : String
  deriving DecidableEq

/-- The estimated cart total of the selection loop (line 301):
`int(product["price_cents"] * 1.08 + 1000)`, i.e. price plus 8% tax plus the
flat 1000-cent shipping, floored. -/
def estimated_cart_total (price_cents : Nat) : Nat :=
  price_cents * 108 / 100 + 1000

/-- The three-way condition of the selection loop (lines 303-305): estimated
cart total within the max price, delivery within the max days, and stock
status `"in_stock"`. -/
def meetsConstraints (max_price_cents max_delivery_days : Nat) (p : Product) : Bool :=
  decide (estimated_cart_total p.price_cents ≤ max_price_cents) &&
  decide (p.delivery_estimate_days ≤ max_delivery_days) &&
  (p.stock_status == "in_stock")

/-- The selection loop of `check_monitoring_conditions` (lines 299-318): scan
the products in the order returned and break at the first one meeting all
three constraints. -/
def find_matching_product (max_price_cents max_delivery_days : Nat) :
    List Product → Option Product
  | [] => none
  | p :: rest =>
      if meetsConstraints max_price_cents max_delivery_days p then some p
      else find_matching_product max_price_cents max_delivery_days rest

/-- The Intent data `check_monitoring_conditions` loads with
`get_mandate_by_id` and hands to `trigger_autonomous_purchase`, reduced to
the fields those functions read. -/
structure IntentData where
  mandate_id : String
  user_id : String
  expiration : Nat
  constraints : JobConstraints
  deriving DecidableEq

/-- The parsed reply of the Payment Agent wrapper
(`PaymentAgent.process_hnp_purchase`). The wrapper drives an external LLM
agent, an external collaborator of this core, so its outcome is an input of
the embedding. -/
structure PaymentResult where
  success : Bool
  payment_mandate_id : Option String
  status_authorized : Bool
  authorization_code : Option String
  decline_reason : Option String
  deriving DecidableEq

/-- Embeds `create_transaction` of `transaction_service.py` (lines 29-114):
append a transaction row linking the mandate triple. `fresh` stands for the
generated uuid part of the transaction id. -/
def create_transaction (s : Store) (user_id cart_mandate_id payment_mandate_id : String)
    (intent_mandate_id : Option String) (status : String)
    (amount_cents : Nat) (fresh : String) : Store × String :=
  let transaction_id := "txn_" ++ fresh
  ({ s with transactions := s.transactions ++
      [{ transaction_id := transaction_id
         intent_mandate_id := intent_mandate_id
         cart_mandate_id := cart_mandate_id
         payment_mandate_id := payment_mandate_id
         user_id := user_id
         status := status
         amount_cents := amount_cents }] },
   transaction_id)

/-- The `total` dictionary `trigger_autonomous_purchase` computes for the
single-line-item cart (lines 444-448): subtotal is the one line total, tax is
`int(subtotal * 0.08)`, shipping is the flat 1000 cents, and the grand total
is their sum. -/
def cart_totals (unit_price_cents quantity : Nat) : Mandates.TotalInput :=
  let line_total := unit_price_cents * quantity
  let subtotal_cents := line_total
  let tax_cents := subtotal_cents * 8 / 100
  let shipping_cents := 1000
  { subtotal_cents := subtotal_cents
    tax_cents := tax_cents
    shipping_cents := shipping_cents
    grand_total_cents := subtotal_cents + tax_cents + shipping_cents
    currency := "USD" }

/-- Embeds `trigger_autonomous_purchase` (`monitoring_service.py` lines
386-620). It re-checks both constraints against the computed grand total
(raising `AP2Error` on violation), calls
`mandate_service.create_cart_mandate` with `intent_reference` set to the
Intent id string and `signed_by="agent"` (a `ValidationError` there
propagates out), persists the cart, invokes the Payment Agent wrapper, and —
only when the wrapper reports success — persists the payment mandate and
appends the transaction row with the grand total as its amount. An
`Except.error` result is an exception escaping the function. -/
def trigger_autonomous_purchase (hmacSha256 : String → String → String)
    (user_secret agent_secret : String) (s : Store) (intent_data : IntentData)
    (matching_product : Product) (user_id : String) (payment : PaymentResult)
    (freshCart freshTxn : String) (now : Nat) :
    Except String (Store × Option String) :=
  let unit_price := matching_product.price_cents
  let quantity := 1
  let total := cart_totals unit_price quantity
  let items : List Mandates.LineItemInput :=
    [{ product_id := matching_product.product_id
       product_name := matching_product.name
       quantity := quantity
       unit_price_cents := unit_price
       line_total_cents := unit_price * quantity }]
  if total.grand_total_cents > intent_data.constraints.max_price_cents then
    .error "ap2:mandate:constraints_violated: cart total exceeds Intent constraint"
  else if matching_product.delivery_estimate_days >
      intent_data.constraints.max_delivery_days then
    .error "ap2:mandate:constraints_violated: delivery exceeds Intent constraint"
  else
    match Mandates.create_cart_mandate hmacSha256 user_secret agent_secret user_id
        items total
        { merchant_id := "merchant_ghostcart_demo"
          merchant_name := "GhostCart Demo Store"
          merchant_url := "https://demo.ghostcart.com" }
        matching_product.delivery_estimate_days
        (some intent_data.mandate_id) "agent" "hnp_delegate_agent" freshCart now with
    | .error e => .error e
    | .ok cart =>
        let s := { s with mandates := s.mandates ++
          [{ id := cart.mandate_id, mandate_type := "cart", user_id := user_id }] }
        if ¬ payment.success then
          .ok (s, none)
        else
          let payment_mandate_id :=
            match payment.payment_mandate_id with
            | some pid => pid
            | none => "payment_hnp_fallback"
          let s :=
            match payment.payment_mandate_id with
            | some pid => { s with mandates := s.mandates ++
                [{ id := pid, mandate_type := "payment", user_id := user_id }] }
            | none => s
          let status := if payment.status_authorized then "authorized" else "declined"
          let (s, transaction_id) := create_transaction s user_id cart.mandate_id
            payment_mandate_id (some intent_data.mandate_id) status
            total.grand_total_cents freshTxn
          .ok (s, some transaction_id)

/-- How one run of `check_monitoring_conditions` ended; the `Crashed` outcomes
are exceptions swallowed by the outer `except` handler (lines 377-378). -/
inductive CheckOutcome where
  | jobInactive
  | intentNotFound
  | expired
  | searchCrashed
  | noProducts
  | noMatch
  | purchaseCrashed (message : String)
  | purchaseDone (transaction_id : Option String)
  deriving DecidableEq

/-- Embeds one sequential run of `check_monitoring_conditions`
(`monitoring_service.py` lines 142-380). External inputs: the Intent row
(`intentOpt`, from `get_mandate_by_id`), the catalog call (`search`; an
`Except.error` is an exception raised by `search_products`, caught by the
outer handler), and the Payment Agent outcome. The run: look up the active
job; record `last_check_at` unconditionally; deactivate with reason
`"intent_not_found"` or `"expired"` when applicable; search; select the first
matching product; re-check the guard and deactivate with reason
`"purchase_starting"` **before** purchasing; then trigger the purchase, whose
exceptions the outer handler swallows after the flip has been committed. -/
def check_monitoring_conditions (hmacSha256 : String → String → String)
    (user_secret agent_secret : String) (s : Store) (intent_mandate_id user_id : String)
    (now : Nat) (intentOpt : Option IntentData) (search : Except Unit (List Product))
    (payment : PaymentResult) (freshCart freshTxn : String) :
    Store × CheckOutcome :=
  match find_job s intent_mandate_id with
  | none => (s, .jobInactive)
  | some job =>
    let s1 := update_last_check s intent_mandate_id now
    match intentOpt with
    | none => (deactivate_job s1 intent_mandate_id "intent_not_found", .intentNotFound)
    | some intent_data =>
      if now > intent_data.expiration then
        (deactivate_job s1 intent_mandate_id "expired", .expired)
      else
        match search with
        | .error _ => (s1, .searchCrashed)
        | .ok products =>
          if products.isEmpty then (s1, .noProducts)
          else
            match find_matching_product job.constraints.max_price_cents
                job.constraints.max_delivery_days products with
            | none => (s1, .noMatch)
            | some matching_product =>
              -- GUARD (lines 353-363): re-fetch, abort if no longer active,
              -- then deactivate before purchasing.
              match find_job s1 intent_mandate_id with
              | none => (s1, .jobInactive)
              | some _ =>
                let s2 := deactivate_job s1 intent_mandate_id "purchase_starting"
                match trigger_autonomous_purchase hmacSha256 user_secret agent_secret
                    s2 intent_data matching_product user_id payment
                    freshCart freshTxn now with
                | .error e => (s2, .purchaseCrashed e)
                | .ok (s3, txn) => (s3, .purchaseDone txn)

/-- The store-mutating operations of the monitoring service, for the job
lifecycle invariants: job creation, `deactivate_job`, user cancellation, and
one scheduler tick of `check_monitoring_conditions`. -/
inductive JobOp where
  | create (intent_id user_id product_query : String) (constraints : JobConstraints)
      (interval_minutes created_at expires_at : Nat)
  | deactivate (job_id reason : String)
  | cancel (job_id user_id : String)
  | tick (hmacSha256 : String → String → String) (user_secret agent_secret : String)
      (intent_mandate_id user_id : String) (now : Nat) (intentOpt : Option IntentData)
      (search : Except Unit (List Product)) (payment : PaymentResult)
      (freshCart freshTxn : String)

/-- The effect of a monitoring-service operation on the durable store. -/
def JobOp.apply : JobOp → Store → Store
  | .create intent_id user_id product_query constraints interval created expires, s =>
      create_monitoring_job s intent_id user_id product_query constraints
        interval created expires
  | .deactivate job_id reason, s => deactivate_job s job_id reason
  | .cancel job_id user_id, s => (cancel_monitoring_job s job_id user_id).1
  | .tick hmacSha256 user_secret agent_secret intent_mandate_id user_id now
      intentOpt search payment freshCart freshTxn, s =>
      (check_monitoring_conditions hmacSha256 user_secret agent_secret s
        intent_mandate_id user_id now intentOpt search payment freshCart freshTxn).1

end Monitoring

namespace Guard

/-- The shared state of the exactly-once guard: the job's `active` column in
the durable store, and a counter of evaluations that proceeded past the guard
into `trigger_autonomous_purchase` (lines 353-366 of
`monitoring_service.py`). -/
structure Shared where
  active : Bool
  purchases : Nat
  deriving DecidableEq

/-- One coordinator evaluation of the job, reduced to its guard-relevant
steps. `pc` walks the source lines: 0 = `await db.refresh(job)` (line 355, a
SELECT copying the stored flag into `sawActive`); 1 = `if not job.active:
return` (line 356, a test of the **previously read** register); 2 =
`await deactivate_job(...)` (line 363, an UPDATE committing `active=False`);
3 = `await trigger_autonomous_purchase(...)` (line 366); 4 = finished. The
refresh and the update are separate database round trips — there is no
compare-and-set — which is exactly what the interleaving semantics below
exercises. -/
structure EvalThread where
  pc : Nat
  sawActive : Bool
  purchased : Bool
  deriving DecidableEq

/-- Initial thread state. -/
def EvalThread.start : EvalThread := { pc := 0, sawActive := false, purchased := false }

/-- Execute one atomic step (one database round trip) of one evaluation. An
evaluation that observes a false flag at the guard test returns immediately
(pc 4) without purchasing. -/
def stepThread (sh : Shared) (t : EvalThread) : Shared × EvalThread :=
  match t.pc with
  | 0 => (sh, { t with pc := 1, sawActive := sh.active })
  | 1 => if t.sawActive then (sh, { t with pc := 2 }) else (sh, { t with pc := 4 })
  | 2 => ({ sh with active := false }, { t with pc := 3 })
  | 3 => ({ sh with purchases := sh.purchases + 1 }, { t with pc := 4, purchased := true })
  | _ => (sh, t)

/-- Two concurrent evaluations of the same job over the shared store. -/
structure RaceState where
  shared : Shared
  t1 : EvalThread
  t2 : EvalThread
  deriving DecidableEq

/-- The initial race state: the job is active, no purchase has run, both
evaluations are dispatched (APScheduler is configured with
`max_instances: 3`, so overlapping runs of the same job are allowed). -/
def RaceState.init : RaceState :=
  { shared := { active := true, purchases := 0 }
    t1 := EvalThread.start
    t2 := EvalThread.start }

/-- Run one step of the chosen evaluation (`false` = first, `true` =
second). -/
def stepRace (st : RaceState) (choice : Bool) : RaceState :=
  if choice then
    let (sh, t) := stepThread st.shared st.t2
    { st with shared := sh, t2 := t }
  else
    let (sh, t) := stepThread st.shared st.t1
    { st with shared := sh, t1 := t }

/-- Run a whole interleaving schedule. -/
def runRace (schedule : List Bool) : RaceState :=
  schedule.foldl stepRace RaceState.init

/-- An evaluation proceeded past the guard exactly when it executed the
purchase step. -/
def EvalThread.passedGuard (t : EvalThread) : Bool := t.purchased

end Guard

namespace Fixtures

/-- A concrete digest primitive standing in for HMAC-SHA256 in concrete
evaluations (the embedding's theorems hold for every digest function). -/
def fixHmac : String → String → String := fun key message => key ++ "#" ++ message

/-- A concrete secret assignment with every role's secret provisioned. -/
def fixSecrets : AgentCrypto.SecretRole → Option String := fun _ => some "sk"

/-- An Intent (payment-agent model) violating the signature checks: the
signature value is not the digest of the content and the signer is not the
owning user; constraints and expiration are set. -/
def c6Intent : PaymentAgent.IntentMandate :=
  { mandate_id := "intent_hnp_1"
    user_id := "alice"
    scenario := "human_not_present"
    product_query := "laptop"
    constraints := some { max_price_cents := some 5000
                          max_delivery_days := some 3
                          currency := "USD" }
    expiration := some 2000
    signature := some { algorithm := "HMAC-SHA256"
                        signer_identity := "mallory"
                        timestamp := 10
                        signature_value := "deadbeef" } }

/-- A structurally consistent Cart (payment-agent model) that violates the
agent-signature check and the chain-reference check, exceeds the Intent's
price constraint (grand total 8560 > 5000) and its delivery constraint
(10 days > 3). -/
def c6Cart : PaymentAgent.CartMandate :=
  { mandate_id := "cart_hnp_9"
    items := [{ product_id := "p9"
                product_name := "Laptop C"
                quantity := 1
                unit_price_cents := 7000
                line_total_cents := 7000 }]
    total := { subtotal_cents := 7000
               tax_cents := 560
               shipping_cents := 1000
               grand_total_cents := 8560
               currency := "USD" }
    merchant_info := { merchant_id := "m1"
                       merchant_name := "Shop"
                       merchant_url := "https://shop.example" }
    delivery_estimate_days := 10
    references := { intent_mandate_id := some "intent_hnp_1", transaction_id := none }
    signature := { algorithm := "HMAC-SHA256"
                   signer_identity := "hnp_delegate_agent"
                   timestamp := 10
                   signature_value := "feedface" } }

/-- The first catalog candidate of the C3 scenario: priced 4350¢. -/
def pRej : Monitoring.Product :=
  { product_id := "p1"
    name := "Laptop A"
    price_cents := 4350
    delivery_estimate_days := 2
    stock_status := "in_stock" }

/-- The second catalog candidate of the C3 scenario: priced 4000¢, delivery
5 days. -/
def pSel : Monitoring.Product :=
  { product_id := "p2"
    name := "Laptop B"
    price_cents := 4000
    delivery_estimate_days := 5
    stock_status := "in_stock" }

/-- An active monitoring job with the scenario constraints
maxPrice=5500¢, maxDelivery=7 days. -/
def scenarioJob : Monitoring.MonitoringJob :=
  { job_id := "intent_hnp_7"
    intent_mandate_id := "intent_hnp_7"
    user_id := "alice"
    product_query := "laptop"
    constraints := { max_price_cents := 5500, max_delivery_days := 7 }
    schedule_interval_minutes := 5
    active := true
    last_check_at := none
    created_at := 0
    expires_at := 1000000 }

/-- A store holding just the scenario job, no mandates, no transactions. -/
def scenarioStore : Monitoring.Store :=
  { jobs := [scenarioJob], mandates := [], transactions := [] }

/-- The stored Intent data for the scenario job. -/
def scenarioIntent : Monitoring.IntentData :=
  { mandate_id := "intent_hnp_7"
    user_id := "alice"
    expiration := 1000000
    constraints := { max_price_cents := 5500, max_delivery_days := 7 } }

/-- A Payment Agent outcome reporting an authorized payment. -/
def okPayment : Monitoring.PaymentResult :=
  { success := true
    payment_mandate_id := some "payment_hnp_1"
    status_authorized := true
    authorization_code := some "AUTH1"
    decline_reason := none }

/-- The C3 scenario run: both candidates returned by the catalog, conditions
met by the second. -/
def c3run : Monitoring.Store × Monitoring.CheckOutcome :=
  Monitoring.check_monitoring_conditions fixHmac "usk" "ask" scenarioStore
    "intent_hnp_7" "alice" 100 (some scenarioIntent) (.ok [pRej, pSel]) okPayment
    "abc" "def"

/-- The C3 no-match run: only the too-expensive candidate is returned. -/
def c3runNoMatch : Monitoring.Store × Monitoring.CheckOutcome :=
  Monitoring.check_monitoring_conditions fixHmac "usk" "ask" scenarioStore
    "intent_hnp_7" "alice" 100 (some scenarioIntent) (.ok [pRej]) okPayment
    "abc" "def"

/-- The C9 pre-flip failure run: the catalog call raises at tick time 50. -/
def c9run : Monitoring.Store × Monitoring.CheckOutcome :=
  Monitoring.check_monitoring_conditions fixHmac "usk" "ask" scenarioStore
    "intent_hnp_7" "alice" 50 (some scenarioIntent) (.error ()) okPayment
    "abc" "def"

/-- A store with one already-inactive job and one unrelated active job, for
the `deactivate_job` idempotence/totality witness. -/
def c10Store : Monitoring.Store :=
  { jobs := [{ scenarioJob with active := false },
             { scenarioJob with job_id := "intent_hnp_8", intent_mandate_id := "intent_hnp_8" }]
    mandates := []
    transactions := [] }

/-- A placeholder cart signature for the C7 construction witness. -/
def c7Sig : SignatureService.SignatureObject :=
  { algorithm := "HMAC-SHA256"
    signer_identity := "alice"
    timestamp := 1
    signature_value := "ab12" }

/-- The Cart the C7 construction witness produces. -/
def c7Cart : Mandates.CartMandate :=
  { mandate_id := "cart_hp_w1"
    items := [{ product_id := "p7", product_name := "Widget", quantity := 2,
                unit_price_cents := 300, line_total_cents := 600 }]
    total := { subtotal_cents := 600, tax_cents := 48, shipping_cents := 1000,
               grand_total_cents := 1648, currency := "USD" }
    merchant_info := { merchant_id := "m1", merchant_name := "Shop",
                       merchant_url := "https://shop.example" }
    delivery_estimate_days := 5
    references := { intent_mandate_id := some "intent_hp_1", transaction_id := none }
    signature := c7Sig }

end Fixtures

/-! Theorems. -/

/-- The selection loop is `List.find?` on the constraint predicate: the first
element in catalog order passing all three checks. -/
theorem Monitoring.find_matching_product_eq_find? (max_price max_days : Nat)
    (ps : List Monitoring.Product) :
    Monitoring.find_matching_product max_price max_days ps =
      ps.find? (Monitoring.meetsConstraints max_price max_days) := by
  induction ps with
  | nil => rfl
  | cons p rest ih =>
      by_cases h : Monitoring.meetsConstraints max_price max_days p = true
      · simp [Monitoring.find_matching_product, List.find?, h]
      · simp only [Bool.not_eq_true] at h
        simp [Monitoring.find_matching_product, List.find?, h, ih]

/-- C4: round-trip of the signature service. For every serializable mandate
record, signer identity, secret and signing time — and for every digest
primitive, in particular HMAC-SHA256 — verifying the signature produced by
`sign_mandate` against the same record with the same secret returns true:
`verify_signature` rebuilds exactly the message `sign_mandate` signed. -/
theorem sign_verify_roundtrip (hmacSha256 : String → String → String)
    (mandate_data : Json) (signer_identity secret_key : String) (now : Nat) :
    SignatureService.verify_signature hmacSha256 mandate_data
      (SignatureService.sign_mandate hmacSha256 mandate_data signer_identity secret_key now)
      secret_key = true := by
  simp [SignatureService.verify_signature, SignatureService.sign_mandate]

/-- C5, counterexample: the claim says verification returns false on a
signature whose timestamp is in the future relative to verification time.
At verification time 100, a record correctly signed with timestamp 200
(future) verifies **true**: neither `signature_service.verify_signature` nor
`payment_agent/crypto.verify_signature` inspects the timestamp beyond mixing
it into the digest message. (The future-timestamp rejection lives only in the
pydantic `SignatureObject` parse validator.) -/
theorem verify_accepts_future_timestamp :
    100 < 200 ∧
    AgentCrypto.verify_signature (fun k m => k ++ "#" ++ m) (fun _ => some "sk")
      (Json.obj [("mandate_id", Json.str "intent_hnp_1")])
      ("sk" ++ "#" ++
        SignatureService.signingMessage (Json.obj [("mandate_id", Json.str "intent_hnp_1")])
          "alice" (timeIso 200))
      "alice" (timeIso 200) AgentCrypto.SecretRole.user = true := by
  exact ⟨by decide, by simp [AgentCrypto.verify_signature]⟩

/-- C5, amended: signature verification is total and returns a boolean; with
the role secret unavailable it returns false (the `except` handler), and with
the secret available it returns true exactly when the recomputed digest
equals the supplied signature value — independently of the signature
timestamp, which in particular is **not** rejected for being in the
future. -/
theorem verify_total_and_timestamp_ignored (hmacSha256 : String → String → String)
    (secrets : AgentCrypto.SecretRole → Option String) (mandate_data : Json)
    (signature_value signer_identity timestamp_iso : String)
    (secret_type : AgentCrypto.SecretRole) :
    (secrets secret_type = none →
      AgentCrypto.verify_signature hmacSha256 secrets mandate_data signature_value
        signer_identity timestamp_iso secret_type = false) ∧
    (∀ secret_key, secrets secret_type = some secret_key →
      (AgentCrypto.verify_signature hmacSha256 secrets mandate_data signature_value
          signer_identity timestamp_iso secret_type = true ↔
        hmacSha256 secret_key
            (SignatureService.signingMessage mandate_data signer_identity timestamp_iso) =
          signature_value)) := by
  constructor
  · intro h
    simp [AgentCrypto.verify_signature, h]
  · intro secret_key h
    simp [AgentCrypto.verify_signature, h]

/-- Witness for the amended C5 theorem at a concrete input. -/
theorem verify_total_and_timestamp_ignored_witness :
    AgentCrypto.verify_signature (fun k m => k ++ "?" ++ m) (fun _ => some "s2")
      Json.null ("s2" ++ "?" ++ SignatureService.signingMessage Json.null "bob" "42")
      "bob" "42" AgentCrypto.SecretRole.user = true :=
  ((verify_total_and_timestamp_ignored (fun k m => k ++ "?" ++ m) (fun _ => some "s2")
      Json.null ("s2" ++ "?" ++ SignatureService.signingMessage Json.null "bob" "42")
      "bob" "42" AgentCrypto.SecretRole.user).2 "s2" rfl).mpr rfl

/-- C1: the guard of `check_monitoring_conditions` is not an atomic
test-and-flip but a read (`db.refresh`, line 355), a test of the stale
register (line 356), and a separate update (`deactivate_job`, line 363). The
first schedule interleaves two evaluations of the same job so that both
refresh before either deactivates: both proceed past the guard and both
invoke `trigger_autonomous_purchase` (two purchase attempts), contradicting
the claim that at most one evaluation proceeds past the guard. The second,
serialized schedule shows the late evaluation observing the flipped flag and
aborting — the behaviour the claim expects for every interleaving. -/
theorem guard_race_double_purchase :
    ((Guard.runRace [false, true, false, false, false, true, true, true]).shared.purchases = 2 ∧
     (Guard.runRace [false, true, false, false, false, true, true, true]).t1.passedGuard = true ∧
     (Guard.runRace [false, true, false, false, false, true, true, true]).t2.passedGuard = true) ∧
    ((Guard.runRace [false, false, false, false, true, true, true, true]).shared.purchases = 1 ∧
     (Guard.runRace [false, false, false, false, true, true, true, true]).t2.passedGuard = false) := by
  decide

/-- C2: the claim describes what holds whenever `validate_hnp_chain` returns
`valid = true`. On the code as written that return value is unreachable: for
**every** intent/cart pair (and every digest primitive, secret assignment and
current time) the function returns `valid = false`. Check 4 compares the
parsed `ReferencesObject` with the Intent id string, which can never be
equal; independently, check 5 reads `cart.user_id`, an attribute the
payment-agent `CartMandate` model does not declare, so evaluation always
reaches the `except` handler before the constraint checks (and the price
check and result dictionary would read the equally undeclared
`cart.total.total_cents`, renamed `grand_total_cents`; see the `"Fixed: was
total_cents"` comment in `monitoring_service.py` line 490). -/
theorem validate_hnp_chain_never_valid (hmacSha256 : String → String → String)
    (secrets : AgentCrypto.SecretRole → Option String) (now : Nat)
    (intent : PaymentAgent.IntentMandate) (cart : PaymentAgent.CartMandate) :
    (PaymentAgent.validate_hnp_chain hmacSha256 secrets now intent cart).valid = false := by
  unfold PaymentAgent.validate_hnp_chain
  simp [PaymentAgent.CartMandate.user_id, PaymentAgent.hnpExceptResult]

/-- C6: the claim says every violated check contributes an entry to the
returned error list. At a pair violating the intent-signature checks, the
chain-reference check, **and both constraint checks** (grand total
8560 > 5000 and delivery 10 > 3), the returned list contains exactly the
entries of checks 1-4 plus one `Chain validation exception` entry, and **no**
price, delivery or user-mismatch entry: check 5 reads `cart.user_id`, an
attribute the `CartMandate` model does not declare, so the run raises
`AttributeError` there — before the constraint checks ever execute — and the
handler replaces everything from check 5 on with the single exception entry.
Checks 1-4 do accumulate without short-circuiting, as the claim describes. -/
theorem hnp_multi_violation_drops_constraint_entries :
    (PaymentAgent.validate_hnp_chain Fixtures.fixHmac Fixtures.fixSecrets 1000
        Fixtures.c6Intent Fixtures.c6Cart).errors =
      [.intentSigInvalid,
       .intentSignerMismatch "mallory" "alice",
       .cartSigInvalid,
       .cartRefMismatch,
       .exception "AttributeError: CartMandate object has no attribute user_id"] ∧
    Fixtures.c6Cart.total.grand_total_cents > 5000 ∧
    Fixtures.c6Cart.delivery_estimate_days > 3 ∧
    ((PaymentAgent.validate_hnp_chain Fixtures.fixHmac Fixtures.fixSecrets 1000
        Fixtures.c6Intent Fixtures.c6Cart).errors.all
      (fun e => ! e.isConstraintEntry)) = true ∧
    ((PaymentAgent.validate_hnp_chain Fixtures.fixHmac Fixtures.fixSecrets 1000
        Fixtures.c6Intent Fixtures.c6Cart).errors.all
      (fun e => ! e.isUserMismatchEntry)) = true := by
  decide

/-- C3: the selection semantics and the scenario arithmetic hold exactly as
claimed — landed cost 5698 rejects the 4350¢ candidate, landed cost 5320
accepts the 4000¢/5-day candidate, first match in catalog order, computed
grand total 5320, and a no-match run leaves the job active with no
transaction — but the claimed Transaction never comes into existence: after
the guard flips, `trigger_autonomous_purchase` raises a `ValidationError`
building the Cart (`mandate_service.create_cart_mandate` passes the Intent id
**string** for the `references : ReferencesObject` field, and also a
`user_id` key the `extra: "forbid"` model rejects; the references field error
comes first in pydantic's field-then-extras order), the outer handler
swallows it, and the run ends with the job deactivated, an empty transaction
table, and no retry. -/
theorem scenario_selection_no_transaction :
    (Monitoring.estimated_cart_total 4350 = 5698 ∧ 5698 > 5500) ∧
    (Monitoring.estimated_cart_total 4000 = 5320 ∧ 5320 ≤ 5500 ∧ 5 ≤ 7) ∧
    Monitoring.find_matching_product 5500 7 [Fixtures.pRej, Fixtures.pSel] =
      some Fixtures.pSel ∧
    (Monitoring.cart_totals 4000 1).grand_total_cents = 5320 ∧
    (Fixtures.c3run.2 = .purchaseCrashed
        "references: Input should be a valid dictionary or instance of ReferencesObject" ∧
     Fixtures.c3run.1.transactions = [] ∧
     Monitoring.find_job Fixtures.c3run.1 "intent_hnp_7" = none) ∧
    (Fixtures.c3runNoMatch.2 = .noMatch ∧
     Fixtures.c3runNoMatch.1.transactions = [] ∧
     (Monitoring.find_job Fixtures.c3runNoMatch.1 "intent_hnp_7").isSome = true) := by
  decide

/-- Helper: every line item accepted by the `LineItem` validators satisfies
the line-total equation. -/
theorem Mandates.parseItems_ok (items : List Mandates.LineItemInput)
    (lis : List Mandates.LineItem) (h : Mandates.parseItems items = .ok lis) :
    ∀ li ∈ lis, li.line_total_cents = li.quantity * li.unit_price_cents := by
  induction items generalizing lis with
  | nil =>
      simp only [Mandates.parseItems] at h
      cases h
      simp
  | cons it rest ih =>
      rw [Mandates.parseItems] at h
      rcases hli : Mandates.mkLineItem it.product_id it.product_name it.quantity
          it.unit_price_cents it.line_total_cents with e | li
      · rw [hli] at h; simp at h
      · rw [hli] at h
        rcases hrest : Mandates.parseItems rest with e | rest'
        · rw [hrest] at h; simp at h
        · rw [hrest] at h
          simp only [Except.ok.injEq] at h
          subst h
          intro x hx
          rcases List.mem_cons.mp hx with hx | hx
          · subst hx
            unfold Mandates.mkLineItem at hli
            split at hli
            · simp at hli
            · split at hli
              · simp at hli
              · rename_i hne
                simp only [ne_eq, Decidable.not_not] at hne
                cases hli
                simpa using hne
          · exact ih rest' hrest x hx

/-- C7: every Cart accepted by the `CartMandate` construction/validation of
`models/mandates.py` satisfies all three total invariants: each line total
equals quantity × unit price (the `LineItem` validator), the subtotal equals
the sum of line totals (the `validate_totals` model validator), and the grand
total equals subtotal + tax + shipping (the `TotalObject` validator). A value
violating any equation makes the corresponding validator raise, so no such
Cart is created. -/
theorem cart_mandate_invariants (mandate_id : String)
    (items : List Mandates.LineItemInput) (total : Mandates.TotalInput)
    (merchant_info : Mandates.MerchantInfo) (delivery_estimate_days : Nat)
    (references : Mandates.RefsValue) (extra_user_id : Option String)
    (signature : SignatureService.SignatureObject)
    (cart : Mandates.CartMandate)
    (h : Mandates.mkCartMandate mandate_id items total merchant_info
        delivery_estimate_days references extra_user_id signature = .ok cart) :
    (∀ li ∈ cart.items, li.line_total_cents = li.quantity * li.unit_price_cents) ∧
    cart.total.subtotal_cents = (cart.items.map (fun li => li.line_total_cents)).sum ∧
    cart.total.grand_total_cents =
      cart.total.subtotal_cents + cart.total.tax_cents + cart.total.shipping_cents := by
  unfold Mandates.mkCartMandate at h
  split at h
  · simp at h
  · rcases hitems : Mandates.parseItems items with e | lineItems
    · rw [hitems] at h; simp at h
    · rw [hitems] at h
      rcases htot : Mandates.mkTotalObject total.subtotal_cents total.tax_cents
          total.shipping_cents total.grand_total_cents total.currency with e | totalObj
      · rw [htot] at h; simp at h
      · rw [htot] at h
        rcases hrefs : Mandates.parseReferences references with e | refs
        · rw [hrefs] at h; simp at h
        · rw [hrefs] at h
          dsimp only at h
          rcases extra_user_id with _ | extra
          case some => simp at h
          dsimp only at h
          by_cases hsub : totalObj.subtotal_cents =
              (lineItems.map (fun li => li.line_total_cents)).sum
          · rw [if_neg (not_not_intro hsub)] at h
            cases h
            refine ⟨Mandates.parseItems_ok items lineItems hitems, hsub, ?_⟩
            unfold Mandates.mkTotalObject at htot
            by_cases hg : total.grand_total_cents =
                total.subtotal_cents + total.tax_cents + total.shipping_cents
            · rw [if_neg (not_not_intro hg)] at htot
              cases htot
              simpa using hg
            · rw [if_pos hg] at htot
              simp at htot
          · rw [if_pos hsub] at h
            simp at h

/-- Witness for the Cart invariants theorem: a concrete two-unit cart accepted
by the validators satisfies all three equations. -/
theorem cart_mandate_invariants_witness :
    ∃ cart : Mandates.CartMandate,
      Mandates.mkCartMandate "cart_hp_w1"
          [{ product_id := "p7", product_name := "Widget", quantity := 2,
             unit_price_cents := 300, line_total_cents := 600 }]
          { subtotal_cents := 600, tax_cents := 48, shipping_cents := 1000,
            grand_total_cents := 1648, currency := "USD" }
          { merchant_id := "m1", merchant_name := "Shop",
            merchant_url := "https://shop.example" }
          5 (.pyDict (some "intent_hp_1") none) none Fixtures.c7Sig = .ok cart ∧
      ((∀ li ∈ cart.items, li.line_total_cents = li.quantity * li.unit_price_cents) ∧
       cart.total.subtotal_cents = (cart.items.map (fun li => li.line_total_cents)).sum ∧
       cart.total.grand_total_cents =
         cart.total.subtotal_cents + cart.total.tax_cents + cart.total.shipping_cents) :=
  ⟨Fixtures.c7Cart, rfl,
   cart_mandate_invariants "cart_hp_w1"
     [{ product_id := "p7", product_name := "Widget", quantity := 2,
        unit_price_cents := 300, line_total_cents := 600 }]
     { subtotal_cents := 600, tax_cents := 48, shipping_cents := 1000,
       grand_total_cents := 1648, currency := "USD" }
     { merchant_id := "m1", merchant_name := "Shop",
       merchant_url := "https://shop.example" }
     5 (.pyDict (some "intent_hp_1") none) none Fixtures.c7Sig Fixtures.c7Cart rfl⟩

/-- C10: `deactivate_job` is idempotent and total. It returns normally on
every input (`scalar_one_or_none` plus the `if job:` guard; the follow-up
`scheduler.remove_job` catches its own exceptions), leaves every stored job
unchanged when no row has the id, leaves the store unchanged when the job is
already inactive, and calling it twice — with any reasons — yields exactly
the store of one call. -/
theorem deactivate_job_idempotent_total (s : Monitoring.Store)
    (job_id reason reason2 : String) :
    Monitoring.deactivate_job (Monitoring.deactivate_job s job_id reason) job_id reason2 =
      Monitoring.deactivate_job s job_id reason ∧
    ((∀ j ∈ s.jobs, j.job_id ≠ job_id) → Monitoring.deactivate_job s job_id reason = s) ∧
    ((∀ j ∈ s.jobs, j.job_id = job_id → j.active = false) →
      Monitoring.deactivate_job s job_id reason = s) := by
  obtain ⟨jobs, mands, txns⟩ := s
  refine ⟨?_, ?_, ?_⟩
  · simp only [Monitoring.deactivate_job, List.map_map, Monitoring.Store.mk.injEq,
      and_true, true_and]
    refine (List.map_congr_left ?_)
    intro j _
    by_cases hj : j.job_id = job_id <;>
      simp [Function.comp, Monitoring.jobDeactivated, hj]
  · intro hnone
    simp only [Monitoring.deactivate_job, Monitoring.Store.mk.injEq, and_true, true_and]
    have : ∀ j ∈ jobs, Monitoring.jobDeactivated job_id j = j := by
      intro j hj
      simp [Monitoring.jobDeactivated, hnone j hj]
    rw [List.map_congr_left this]; simp
  · intro hinactive
    simp only [Monitoring.deactivate_job, Monitoring.Store.mk.injEq, and_true, true_and]
    have : ∀ j ∈ jobs, Monitoring.jobDeactivated job_id j = j := by
      intro j hj
      by_cases hid : j.job_id = job_id
      · have := hinactive j hj hid
        cases j
        simp_all [Monitoring.jobDeactivated]
      · simp [Monitoring.jobDeactivated, hid]
    rw [List.map_congr_left this]; simp

/-- Witness for `deactivate_job` idempotence/totality: on a store whose only
matching job is already inactive, deactivation with one reason leaves the
store unchanged, and a repeated call adds nothing. -/
theorem deactivate_job_idempotent_total_witness :
    Monitoring.deactivate_job Fixtures.c10Store "intent_hnp_7" "expired" =
      Fixtures.c10Store :=
  (deactivate_job_idempotent_total Fixtures.c10Store "intent_hnp_7" "expired"
    "cancelled").2.2 (by decide)

/-- Helper: the per-row deactivation update preserves the primary key. -/
theorem Monitoring.jobDeactivated_id (job_id : String) (j : Monitoring.MonitoringJob) :
    (Monitoring.jobDeactivated job_id j).job_id = j.job_id := by
  unfold Monitoring.jobDeactivated
  split <;> rfl

/-- Helper: the per-row deactivation update never turns a row active. -/
theorem Monitoring.jobDeactivated_inactive (job_id : String)
    (j : Monitoring.MonitoringJob) (h : j.active = false) :
    (Monitoring.jobDeactivated job_id j).active = false := by
  unfold Monitoring.jobDeactivated
  split <;> simp [h]

/-- Helper: the per-row last-check update preserves the primary key. -/
theorem Monitoring.jobChecked_id (job_id : String) (now : Nat)
    (j : Monitoring.MonitoringJob) :
    (Monitoring.jobChecked job_id now j).job_id = j.job_id := by
  unfold Monitoring.jobChecked
  split <;> rfl

/-- Helper: the per-row last-check update preserves the active flag. -/
theorem Monitoring.jobChecked_active (job_id : String) (now : Nat)
    (j : Monitoring.MonitoringJob) :
    (Monitoring.jobChecked job_id now j).active = j.active := by
  unfold Monitoring.jobChecked
  split <;> rfl

/-- Helper: `trigger_autonomous_purchase` never touches the `monitoring_jobs`
table: a successful run returns a store with the caller's job rows. -/
theorem Monitoring.trigger_jobs_unchanged (hmacSha256 : String → String → String)
    (u a : String) (s : Monitoring.Store) (intent_data : Monitoring.IntentData)
    (p : Monitoring.Product) (uid : String) (payment : Monitoring.PaymentResult)
    (fc ft : String) (now : Nat) (s2 : Monitoring.Store) (r : Option String)
    (h : Monitoring.trigger_autonomous_purchase hmacSha256 u a s intent_data p uid
        payment fc ft now = .ok (s2, r)) :
    s2.jobs = s.jobs := by
  unfold Monitoring.trigger_autonomous_purchase at h
  simp only [] at h
  by_cases h1 : (Monitoring.cart_totals p.price_cents 1).grand_total_cents >
      intent_data.constraints.max_price_cents
  · rw [if_pos h1] at h
    exact absurd h (by simp)
  · rw [if_neg h1] at h
    by_cases h2 : p.delivery_estimate_days > intent_data.constraints.max_delivery_days
    · rw [if_pos h2] at h
      exact absurd h (by simp)
    · rw [if_neg h2] at h
      split at h
      · exact absurd h (by simp)
      · split at h
        · cases h
          rfl
        · rcases hpm : payment.payment_mandate_id with _ | pid <;> rw [hpm] at h <;>
            cases h <;> simp [Monitoring.create_transaction]

/-- Helper: every store a tick of `check_monitoring_conditions` produces has
its job table obtained by an in-place row rewrite that preserves primary keys
and never reactivates an inactive row. -/
theorem Monitoring.check_jobs_shape (hmacSha256 : String → String → String)
    (u a : String) (s : Monitoring.Store) (id uid : String) (now : Nat)
    (intentOpt : Option Monitoring.IntentData)
    (search : Except Unit (List Monitoring.Product))
    (payment : Monitoring.PaymentResult) (fc ft : String) :
    ∃ f : Monitoring.MonitoringJob → Monitoring.MonitoringJob,
      ((Monitoring.check_monitoring_conditions hmacSha256 u a s id uid now intentOpt
          search payment fc ft).1).jobs = s.jobs.map f ∧
      (∀ j, (f j).job_id = j.job_id) ∧
      (∀ j, j.active = false → (f j).active = false) := by
  have idShape : ∃ f : Monitoring.MonitoringJob → Monitoring.MonitoringJob,
      s.jobs = s.jobs.map f ∧ (∀ j, (f j).job_id = j.job_id) ∧
      (∀ j, j.active = false → (f j).active = false) :=
    ⟨fun j => j, by simp, fun _ => rfl, fun _ h => h⟩
  have checkedShape : ∃ f : Monitoring.MonitoringJob → Monitoring.MonitoringJob,
      (Monitoring.update_last_check s id now).jobs = s.jobs.map f ∧
      (∀ j, (f j).job_id = j.job_id) ∧
      (∀ j, j.active = false → (f j).active = false) :=
    ⟨Monitoring.jobChecked id now, rfl, Monitoring.jobChecked_id id now,
     fun j h => by rw [Monitoring.jobChecked_active]; exact h⟩
  have deactShape : ∀ reason, ∃ f : Monitoring.MonitoringJob → Monitoring.MonitoringJob,
      (Monitoring.deactivate_job (Monitoring.update_last_check s id now) id reason).jobs =
        s.jobs.map f ∧
      (∀ j, (f j).job_id = j.job_id) ∧
      (∀ j, j.active = false → (f j).active = false) := by
    intro reason
    refine ⟨fun j => Monitoring.jobDeactivated id (Monitoring.jobChecked id now j),
      ?_, ?_, ?_⟩
    · simp [Monitoring.deactivate_job, Monitoring.update_last_check, List.map_map,
        Function.comp]
    · intro j
      rw [Monitoring.jobDeactivated_id, Monitoring.jobChecked_id]
    · intro j h
      exact Monitoring.jobDeactivated_inactive _ _
        (by rw [Monitoring.jobChecked_active]; exact h)
  unfold Monitoring.check_monitoring_conditions
  rcases hfind : Monitoring.find_job s id with _ | job
  · simpa using idShape
  · rcases intentOpt with _ | intent_data
    · simpa using deactShape "intent_not_found"
    · by_cases hexp : now > intent_data.expiration
      · simp only [if_pos hexp]
        exact deactShape "expired"
      · simp only [if_neg hexp]
        rcases search with e | products
        · simpa using checkedShape
        · by_cases hempty : products.isEmpty
          · simp only [if_pos hempty]
            exact checkedShape
          · simp only [if_neg hempty]
            rcases hmatch : Monitoring.find_matching_product
                job.constraints.max_price_cents job.constraints.max_delivery_days
                products with _ | matching_product
            · simpa using checkedShape
            · rcases hfind2 : Monitoring.find_job
                  (Monitoring.update_last_check s id now) id with _ | job2
              · simpa using checkedShape
              · rcases htrig : Monitoring.trigger_autonomous_purchase hmacSha256 u a
                    (Monitoring.deactivate_job (Monitoring.update_last_check s id now)
                      id "purchase_starting")
                    intent_data matching_product uid payment fc ft now with e | s3r
                · simp only [htrig]
                  exact deactShape "purchase_starting"
                · obtain ⟨s3, r⟩ := s3r
                  simp only [htrig]
                  obtain ⟨f, hf, hid, hact⟩ := deactShape "purchase_starting"
                  refine ⟨f, ?_, hid, hact⟩
                  dsimp only
                  rw [Monitoring.trigger_jobs_unchanged hmacSha256 u a _ intent_data
                    matching_product uid payment fc ft now s3 r htrig]
                  exact hf

/-- C8, counterexample: the claim says the transition to inactive is tagged
with a **persisted** terminal reason drawn from completed/expired/cancelled/
failed. The `monitoring_jobs` table has no reason column: deactivating the
scenario job with the reason string the purchase path actually passes
(`"purchase_starting"`) yields exactly the same store as deactivating it with
any other string — the transition really happens (the store changes), yet the
resulting store carries no trace of the reason — and the reason strings the
code passes (`"purchase_starting"`, `"user_cancelled"`, `"intent_not_found"`)
are not drawn from the claimed set. -/
theorem deactivate_reason_not_persisted :
    Monitoring.deactivate_job Fixtures.scenarioStore "intent_hnp_7" "purchase_starting" =
      Monitoring.deactivate_job Fixtures.scenarioStore "intent_hnp_7" "zz_not_a_reason" ∧
    Monitoring.deactivate_job Fixtures.scenarioStore "intent_hnp_7" "purchase_starting" ≠
      Fixtures.scenarioStore ∧
    ¬ ("purchase_starting" ∈ (["completed", "expired", "cancelled", "failed"] : List String)) ∧
    ¬ ("user_cancelled" ∈ (["completed", "expired", "cancelled", "failed"] : List String)) ∧
    ¬ ("intent_not_found" ∈ (["completed", "expired", "cancelled", "failed"] : List String)) := by
  decide

/-- Helper: the store a user cancellation produces either is untouched (no
matching active job) or has every matching row deactivated. -/
theorem Monitoring.cancel_jobs_shape (s : Monitoring.Store) (job_id user_id : String) :
    ((Monitoring.cancel_monitoring_job s job_id user_id).1).jobs = s.jobs ∨
    ((Monitoring.cancel_monitoring_job s job_id user_id).1).jobs =
      s.jobs.map (Monitoring.jobDeactivated job_id) := by
  unfold Monitoring.cancel_monitoring_job
  split
  · exact Or.inl rfl
  · exact Or.inr rfl

/-- C8, amended: over every monitoring-service store operation (job creation,
`deactivate_job`, user cancellation, a scheduler tick), and every store whose
job ids are unique (the primary key), (1) a job row not present before the
operation was inserted active with no last-check timestamp — jobs start
active; (2) no job row is ever deleted; (3) a job that is inactive never
becomes active again, so the active-to-inactive transition happens at most
once; and (4) the deactivation reason is not persisted: `deactivate_job`
produces the same store for any two reason strings (the reason is only
logged, and the strings actually passed are `purchase_starting`,
`intent_not_found`, `user_cancelled` and `expired`). -/
theorem job_lifecycle_invariants (op : Monitoring.JobOp) (s : Monitoring.Store)
    (hWF : (s.jobs.map (fun j => j.job_id)).Nodup) :
    (∀ j' ∈ (op.apply s).jobs,
        (∃ j ∈ s.jobs, j.job_id = j'.job_id) ∨
        (j'.active = true ∧ j'.last_check_at = none)) ∧
    (∀ j ∈ s.jobs, ∃ j' ∈ (op.apply s).jobs, j'.job_id = j.job_id) ∧
    (∀ j ∈ s.jobs, j.active = false →
        ∀ j' ∈ (op.apply s).jobs, j'.job_id = j.job_id → j'.active = false) ∧
    (∀ job_id r1 r2, Monitoring.deactivate_job s job_id r1 =
        Monitoring.deactivate_job s job_id r2) := by
  have inj := List.inj_on_of_nodup_map hWF
  have shape :
      (∃ f : Monitoring.MonitoringJob → Monitoring.MonitoringJob,
          (op.apply s).jobs = s.jobs.map f ∧
          (∀ j, (f j).job_id = j.job_id) ∧
          (∀ j, j.active = false → (f j).active = false)) ∨
      (∃ newJob : Monitoring.MonitoringJob,
          (op.apply s).jobs = s.jobs ++ [newJob] ∧
          newJob.active = true ∧ newJob.last_check_at = none ∧
          ∀ j ∈ s.jobs, j.job_id ≠ newJob.job_id) := by
    cases op with
    | create intent_id user_id product_query constraints interval created expires =>
        by_cases hdup : s.jobs.any (fun j => j.job_id = intent_id)
        · left
          refine ⟨fun j => j, ?_, fun _ => rfl, fun _ h => h⟩
          simp [Monitoring.JobOp.apply, Monitoring.create_monitoring_job, hdup]
        · right
          refine ⟨{ job_id := intent_id, intent_mandate_id := intent_id
                    user_id := user_id, product_query := product_query
                    constraints := constraints, schedule_interval_minutes := interval
                    active := true, last_check_at := none, created_at := created
                    expires_at := expires }, ?_, rfl, rfl, ?_⟩
          · simp [Monitoring.JobOp.apply, Monitoring.create_monitoring_job, hdup]
          · intro j hj hcontra
            apply hdup
            rw [List.any_eq_true]
            exact ⟨j, hj, by simp [hcontra]⟩
    | deactivate job_id reason =>
        left
        exact ⟨Monitoring.jobDeactivated job_id, rfl,
          Monitoring.jobDeactivated_id job_id, Monitoring.jobDeactivated_inactive job_id⟩
    | cancel job_id user_id =>
        left
        rcases Monitoring.cancel_jobs_shape s job_id user_id with hc | hc
        · refine ⟨fun j => j, ?_, fun _ => rfl, fun _ h => h⟩
          simp only [Monitoring.JobOp.apply]
          rw [hc]
          simp
        · refine ⟨Monitoring.jobDeactivated job_id, ?_,
            Monitoring.jobDeactivated_id job_id, Monitoring.jobDeactivated_inactive job_id⟩
          simp only [Monitoring.JobOp.apply]
          exact hc
    | tick hmacSha256 u a id uid now intentOpt search payment fc ft =>
        left
        exact Monitoring.check_jobs_shape hmacSha256 u a s id uid now intentOpt
          search payment fc ft
  refine ⟨?_, ?_, ?_, fun _ _ _ => rfl⟩
  · intro j' hj'
    rcases shape with ⟨f, hf, hid, _⟩ | ⟨newJob, hnew, hact, hlast, hfresh⟩
    · rw [hf] at hj'
      obtain ⟨j0, hj0, rfl⟩ := List.mem_map.mp hj'
      exact Or.inl ⟨j0, hj0, (hid j0).symm⟩
    · rw [hnew] at hj'
      rcases List.mem_append.mp hj' with hj' | hj'
      · exact Or.inl ⟨j', hj', rfl⟩
      · simp only [List.mem_singleton] at hj'
        subst hj'
        exact Or.inr ⟨hact, hlast⟩
  · intro j hj
    rcases shape with ⟨f, hf, hid, _⟩ | ⟨newJob, hnew, _, _, _⟩
    · exact ⟨f j, by rw [hf]; exact List.mem_map_of_mem f hj, hid j⟩
    · exact ⟨j, by rw [hnew]; exact List.mem_append_left _ hj, rfl⟩
  · intro j hj hjact j' hj' hsame
    rcases shape with ⟨f, hf, hid, hmono⟩ | ⟨newJob, hnew, _, _, hfresh⟩
    · rw [hf] at hj'
      obtain ⟨j0, hj0, rfl⟩ := List.mem_map.mp hj'
      have hj0j : j0 = j := inj hj0 hj ((hid j0).symm.trans hsame)
      subst hj0j
      exact hmono j0 hjact
    · rw [hnew] at hj'
      rcases List.mem_append.mp hj' with hj' | hj'
      · have hj'j : j' = j := inj hj' hj hsame
        subst hj'j
        exact hjact
      · simp only [List.mem_singleton] at hj'
        subst hj'
        exact absurd hsame.symm (hfresh j hj)

/-- Witness for the job lifecycle invariants at a concrete operation: after
cancelling the scenario job, a row with its id is still stored (never
deleted). -/
theorem job_lifecycle_invariants_witness :
    ∃ j', j' ∈ ((Monitoring.JobOp.cancel "intent_hnp_7" "alice").apply
        Fixtures.scenarioStore).jobs ∧ j'.job_id = "intent_hnp_7" := by
  obtain ⟨j', hj', hid⟩ :=
    (job_lifecycle_invariants (Monitoring.JobOp.cancel "intent_hnp_7" "alice")
      Fixtures.scenarioStore (by decide)).2.1 Fixtures.scenarioJob (by decide)
  exact ⟨j', hj', by rw [hid]; rfl⟩

/-- Helper: recording the last-check timestamp commutes with the active-job
lookup — the looked-up row is the same row with its timestamp updated. -/
theorem Monitoring.find_job_update_last_check (s : Monitoring.Store)
    (id : String) (now : Nat) :
    Monitoring.find_job (Monitoring.update_last_check s id now) id =
      (Monitoring.find_job s id).map (Monitoring.jobChecked id now) := by
  unfold Monitoring.find_job Monitoring.update_last_check
  obtain ⟨jobs, mands, txns⟩ := s
  induction jobs with
  | nil => rfl
  | cons j rest ih =>
      by_cases hpred : (j.job_id = id ∧ j.active = true)
      · simp [List.find?, Monitoring.jobChecked_id, Monitoring.jobChecked_active, hpred]
      · simp only [List.map_cons, List.find?]
        rw [show (decide (j.job_id = id ∧ j.active = true)) = false by simpa using hpred]
        rw [show (decide ((Monitoring.jobChecked id now j).job_id = id ∧
            (Monitoring.jobChecked id now j).active = true)) = false by
          simp only [Monitoring.jobChecked_id, Monitoring.jobChecked_active]
          simpa using hpred]
        simpa using ih

/-- Helper: after `deactivate_job`, the active-job lookup for that id finds
nothing — every row with the id has its flag false. -/
theorem Monitoring.find_job_deactivated (s : Monitoring.Store)
    (id reason : String) :
    Monitoring.find_job (Monitoring.deactivate_job s id reason) id = none := by
  unfold Monitoring.find_job Monitoring.deactivate_job
  obtain ⟨jobs, mands, txns⟩ := s
  induction jobs with
  | nil => rfl
  | cons j rest ih =>
      simp only [List.map_cons, List.find?]
      rw [show (decide ((Monitoring.jobDeactivated id j).job_id = id ∧
          (Monitoring.jobDeactivated id j).active = true)) = false by
        unfold Monitoring.jobDeactivated
        by_cases hid : j.job_id = id <;> simp [hid]]
      simpa using ih

/-- Helper: a character list is an initial segment of itself. -/
theorem charsStart_refl (xs : List Char) : charsStart xs xs = true := by
  induction xs with
  | nil => rfl
  | cons c cs ih => simp [charsStart, ih]

/-- Helper: extending the scanned list on the right preserves the
initial-segment test. -/
theorem charsStart_append_left (xs ys zs : List Char)
    (h : charsStart xs ys = true) : charsStart xs (ys ++ zs) = true := by
  induction xs generalizing ys with
  | nil => rfl
  | cons c cs ih =>
      cases ys with
      | nil => simp [charsStart] at h
      | cons b bs =>
          simp only [charsStart, Bool.and_eq_true] at h
          simp only [List.cons_append, charsStart, Bool.and_eq_true]
          exact ⟨h.1, ih bs h.2⟩

/-- Helper: the generated cart mandate id always starts with `cart_`. -/
theorem strStarts_cart_prefixed (tag fresh : String) :
    strStarts ("cart_" ++ tag ++ "_" ++ fresh) "cart_" = true := by
  have h0 : charsStart "cart_".data "cart_".data = true := charsStart_refl _
  have h1 : charsStart "cart_".data ("cart_" ++ tag).data = true :=
    charsStart_append_left "cart_".data "cart_".data tag.data h0
  have h2 : charsStart "cart_".data ("cart_" ++ tag ++ "_").data = true :=
    charsStart_append_left "cart_".data ("cart_" ++ tag).data "_".data h1
  exact charsStart_append_left "cart_".data ("cart_" ++ tag ++ "_").data fresh.data h2

/-- Helper: `create_cart_mandate` fails on every call that passes an Intent
reference — the reference reaches the `ReferencesObject` field as a raw
string and pydantic rejects it. -/
theorem Mandates.create_cart_ref_string_errors (hmacSha256 : String → String → String)
    (u a uid : String) (items : List Mandates.LineItemInput)
    (total : Mandates.TotalInput) (mi : Mandates.MerchantInfo) (days : Nat)
    (r signed_by signer fresh : String) (now : Nat) :
    ∃ msg, Mandates.create_cart_mandate hmacSha256 u a uid items total mi days
      (some r) signed_by signer fresh now = .error msg := by
  unfold Mandates.create_cart_mandate Mandates.mkCartMandate
  simp only []
  rw [strStarts_cart_prefixed (if strContains r "hnp" then "hnp" else "hp") fresh]
  rw [if_neg (by simp)]
  rcases hpi : Mandates.parseItems items with e | lis
  · simp only [hpi]
    exact ⟨e, rfl⟩
  · simp only [hpi]
    rcases hto : Mandates.mkTotalObject total.subtotal_cents total.tax_cents
        total.shipping_cents total.grand_total_cents total.currency with e | tobj
    · simp only [hto]
      exact ⟨e, rfl⟩
    · simp only [hto]
      exact ⟨_, rfl⟩

/-- Helper: `trigger_autonomous_purchase` raises on every input — either at
its own constraint re-check, or (when both constraints hold) at the
`CartMandate` validation of the string `references` field. -/
theorem Monitoring.trigger_always_errors (hmacSha256 : String → String → String)
    (u a : String) (s : Monitoring.Store) (intent_data : Monitoring.IntentData)
    (p : Monitoring.Product) (uid : String) (payment : Monitoring.PaymentResult)
    (fc ft : String) (now : Nat) :
    ∃ msg, Monitoring.trigger_autonomous_purchase hmacSha256 u a s intent_data p uid
      payment fc ft now = .error msg := by
  unfold Monitoring.trigger_autonomous_purchase
  simp only []
  by_cases h1 : (Monitoring.cart_totals p.price_cents 1).grand_total_cents >
      intent_data.constraints.max_price_cents
  · rw [if_pos h1]
    exact ⟨_, rfl⟩
  · rw [if_neg h1]
    by_cases h2 : p.delivery_estimate_days > intent_data.constraints.max_delivery_days
    · rw [if_pos h2]
      exact ⟨_, rfl⟩
    · rw [if_neg h2]
      obtain ⟨msg, hmsg⟩ := Mandates.create_cart_ref_string_errors hmacSha256 u a uid
        [{ product_id := p.product_id, product_name := p.name, quantity := 1,
           unit_price_cents := p.price_cents,
           line_total_cents := p.price_cents * 1 }]
        (Monitoring.cart_totals p.price_cents 1)
        { merchant_id := "merchant_ghostcart_demo",
          merchant_name := "GhostCart Demo Store",
          merchant_url := "https://demo.ghostcart.com" }
        p.delivery_estimate_days intent_data.mandate_id "agent" "hnp_delegate_agent"
        fc now
      rw [hmsg]
      exact ⟨msg, rfl⟩

/-- C9, counterexample: the claim says a failure before the guard flip leaves
the active flag true **and the store otherwise unchanged**. When the catalog
call raises at tick time 50, the job does stay active, but the store is not
otherwise unchanged: the run has already committed `last_check_at = 50`
(recorded unconditionally before the search), so the resulting store differs
from the original. -/
theorem prefailure_store_changes_last_check :
    Fixtures.c9run.2 = .searchCrashed ∧
    Fixtures.c9run.1 ≠ Fixtures.scenarioStore ∧
    Fixtures.c9run.1.jobs = [{ Fixtures.scenarioJob with last_check_at := some 50 }] ∧
    (Monitoring.find_job Fixtures.c9run.1 "intent_hnp_7").isSome = true := by
  decide

/-- C9, amended: for an active, unexpired job, (1) a failure of the catalog
call before the guard flip leaves the job active and re-evaluable on the next
tick; the store is unchanged **except** the job's `last_check_at` timestamp,
which every evaluation records before searching; no mandate or transaction is
written. (2) Once conditions match, the guard flips first and the purchase
then raises (the Cart validation rejects the string `references`); the
exception is swallowed, the job is left permanently inactive with no
transaction written, and every later evaluation of the job is a no-op — the
failure is never retried. -/
theorem failure_semantics_around_guard (hmacSha256 : String → String → String)
    (u a : String) (s : Monitoring.Store) (id uid : String) (now : Nat)
    (intent_data : Monitoring.IntentData) (payment : Monitoring.PaymentResult)
    (fc ft : String) (job : Monitoring.MonitoringJob)
    (hfind : Monitoring.find_job s id = some job)
    (hexp : now ≤ intent_data.expiration) :
    (Monitoring.check_monitoring_conditions hmacSha256 u a s id uid now
        (some intent_data) (.error ()) payment fc ft =
      (Monitoring.update_last_check s id now, .searchCrashed) ∧
     (Monitoring.update_last_check s id now).transactions = s.transactions ∧
     (Monitoring.update_last_check s id now).mandates = s.mandates ∧
     (∀ j, (Monitoring.jobChecked id now j).active = j.active) ∧
     Monitoring.find_job (Monitoring.update_last_check s id now) id =
       some (Monitoring.jobChecked id now job)) ∧
    (∀ products matching_product,
      products.isEmpty = false →
      Monitoring.find_matching_product job.constraints.max_price_cents
        job.constraints.max_delivery_days products = some matching_product →
      ∃ msg,
        Monitoring.check_monitoring_conditions hmacSha256 u a s id uid now
            (some intent_data) (.ok products) payment fc ft =
          (Monitoring.deactivate_job (Monitoring.update_last_check s id now) id
            "purchase_starting", .purchaseCrashed msg) ∧
        (Monitoring.deactivate_job (Monitoring.update_last_check s id now) id
            "purchase_starting").transactions = s.transactions ∧
        Monitoring.find_job (Monitoring.deactivate_job
          (Monitoring.update_last_check s id now) id "purchase_starting") id = none ∧
        (∀ now2 intentOpt2 search2 payment2 fc2 ft2,
          Monitoring.check_monitoring_conditions hmacSha256 u a
            (Monitoring.deactivate_job (Monitoring.update_last_check s id now) id
              "purchase_starting") id uid now2 intentOpt2 search2 payment2 fc2 ft2 =
          (Monitoring.deactivate_job (Monitoring.update_last_check s id now) id
            "purchase_starting", .jobInactive))) := by
  have hnexp : ¬ now > intent_data.expiration := by omega
  have hfu := Monitoring.find_job_update_last_check s id now
  rw [hfind] at hfu
  constructor
  · refine ⟨?_, rfl, rfl, Monitoring.jobChecked_active id now, hfu⟩
    simp [Monitoring.check_monitoring_conditions, hfind, hnexp]
  · intro products matching_product hne hmatch
    obtain ⟨msg, hmsg⟩ := Monitoring.trigger_always_errors hmacSha256 u a
      (Monitoring.deactivate_job (Monitoring.update_last_check s id now) id
        "purchase_starting") intent_data matching_product uid payment fc ft now
    refine ⟨msg, ?_, rfl, Monitoring.find_job_deactivated _ id "purchase_starting", ?_⟩
    · simp [Monitoring.check_monitoring_conditions, hfind, hnexp, hne, hmatch,
        hfu, hmsg]
    · intro now2 intentOpt2 search2 payment2 fc2 ft2
      simp [Monitoring.check_monitoring_conditions,
        Monitoring.find_job_deactivated _ id "purchase_starting"]

/-- Witness for the failure-semantics theorem: the scenario store at tick
time 50 with a raised catalog call ends in exactly the last-check-updated
store with the job still active. -/
theorem failure_semantics_around_guard_witness :
    Monitoring.check_monitoring_conditions Fixtures.fixHmac "usk" "ask"
        Fixtures.scenarioStore "intent_hnp_7" "alice" 50 (some Fixtures.scenarioIntent)
        (.error ()) Fixtures.okPayment "abc" "def" =
      (Monitoring.update_last_check Fixtures.scenarioStore "intent_hnp_7" 50,
        .searchCrashed) :=
  (failure_semantics_around_guard Fixtures.fixHmac "usk" "ask" Fixtures.scenarioStore
    "intent_hnp_7" "alice" 50 Fixtures.scenarioIntent Fixtures.okPayment "abc" "def"
    Fixtures.scenarioJob (by decide) (by decide)).1.1

end GhostCart
